import Mathlib

/-
Verification development for the weather-station firmware (src/src/main.py).
The Python source is shallowly embedded: JSON values become an inductive
type, Python coercions (float, int, truthiness) become explicit functions,
fallible operations return Option (none models an uncaught exception), and
the stateful WiFi / main-loop code becomes explicit state passing together
with an event trace.
-/

/-- JSON values as decoded by ujson: null, booleans, numbers (modelled as
rationals), strings, arrays and objects (association lists). -/
inductive JVal where
  | null
  | bool (b : Bool)
  | num (q : ℚ)
  | str (s : String)
  | arr (xs : List JVal)
  | obj (fields : List (String × JVal))

/-- Digits-to-value accumulator for numeric string parsing. -/
def digitsVal (cs : List Char) : Nat :=
  cs.foldl (fun a c => a * 10 + (c.toNat - 48)) 0

/-- Split a char list into its leading run of decimal digits and the rest. -/
def takeDigits (cs : List Char) : List Char × List Char :=
  (cs.takeWhile Char.isDigit, cs.dropWhile Char.isDigit)

/-- Parse an optionally signed digit string that must consume the whole
input; models Python int() applied to a string. -/
def parseSignedDigits (r : List Char) : Option Int :=
  let sgn : Int × List Char :=
    match r with
    | '+' :: t => (1, t)
    | '-' :: t => (-1, t)
    | t => (1, t)
  let ds := takeDigits sgn.2
  if ds.1.isEmpty ∨ ¬ ds.2.isEmpty then none
  else some (sgn.1 * (digitsVal ds.1 : Int))

/-- Parse the optional exponent suffix of a decimal literal. -/
def parseExp (cs : List Char) : Option Int :=
  match cs with
  | [] => some 0
  | 'e' :: r => parseSignedDigits r
  | 'E' :: r => parseSignedDigits r
  | _ => none

/-- Model of Python float() applied to a string, for decimal literals of
the form sign, integer part, optional fraction, optional exponent. -/
def parsePyFloat (s : String) : Option ℚ :=
  let sgn : ℚ × List Char :=
    match s.data with
    | '+' :: t => (1, t)
    | '-' :: t => (-1, t)
    | t => (1, t)
  let ip := takeDigits sgn.2
  let fp : List Char × List Char :=
    match ip.2 with
    | '.' :: t => takeDigits t
    | _ => ([], ip.2)
  if ip.1.isEmpty ∧ fp.1.isEmpty then none
  else
    match parseExp fp.2 with
    | none => none
    | some e =>
      let mant : ℚ :=
        sgn.1 * ((digitsVal ip.1 : ℚ) + (digitsVal fp.1 : ℚ) / (10 : ℚ) ^ fp.1.length)
      if 0 ≤ e then some (mant * (10 : ℚ) ^ e.toNat)
      else some (mant / (10 : ℚ) ^ (-e).toNat)

/-- Python float() over JSON values: numbers and booleans convert, strings
are parsed, everything else raises (none). -/
def pyFloat : JVal → Option ℚ
  | .num q => some q
  | .bool b => some (if b then 1 else 0)
  | .str s => parsePyFloat s
  | _ => none

/-- is_number from the source: float(x) succeeds. -/
def is_number (x : JVal) : Bool := (pyFloat x).isSome

/-- Truncation of a rational toward zero, the behaviour of Python int()
on a float: floor for nonnegative values, ceiling for negative ones. -/
def ratTrunc (q : ℚ) : Int :=
  if 0 ≤ q then ⌊q⌋ else ⌈q⌉

/-- Python int() over JSON values: floats truncate toward zero, booleans
convert, strings must be pure signed integers, everything else raises. -/
def pyInt : JVal → Option Int
  | .num q => some (ratTrunc q)
  | .bool b => some (if b then 1 else 0)
  | .str s => parseSignedDigits s.data
  | _ => none

/-- Python truthiness of a JSON value. -/
def pyTruthy : JVal → Bool
  | .null => false
  | .bool b => b
  | .num q => decide (q ≠ 0)
  | .str s => ¬ s.isEmpty
  | .arr xs => ¬ xs.isEmpty
  | .obj fs => ¬ fs.isEmpty

/-- Truthiness of an optional JSON value (None is falsy). -/
def truthyOpt : Option JVal → Bool
  | none => false
  | some j => pyTruthy j

/-- Python dict.get(key, default): raises (none) on non-dict receivers,
returns the stored value (possibly null) or the default when absent. -/
def dictGetD (j : JVal) (k : String) (d : JVal) : Option JVal :=
  match j with
  | .obj fs => some ((fs.lookup k).getD d)
  | _ => none

/-- Python dict.get(key): default None. -/
def dictGet (j : JVal) (k : String) : Option JVal := dictGetD j k JVal.null

/-- pad_right from the source: coerce None to the empty string, truncate
to width when too long, otherwise pad with spaces up to width. -/
def pad_right (s? : Option String) (width : Nat) : String :=
  let s := s?.getD ""
  if width < s.length then String.mk (s.data.take width)
  else String.mk (s.data ++ List.replicate (width - s.length) ' ')

/-
HTTP layer and API clients.  urequests is an external collaborator, so the
outcome of one HTTP GET is an abstract HttpResult; http_get_json maps it to
the (data, err) pair of the source.  The API-client functions return
Option (result pair): the outer none models an uncaught Python exception
escaping the function (for example .get on a non-dict value).
-/

/-- Possible outcomes of one urequests.get call, as distinguished by
http_get_json in the source. -/
inductive HttpResult where
  | ok (body : JVal)
  | status (code : Nat)
  | badJson
  | netError (msg : String)

/-- http_get_json from the source: 200 with parseable body yields the
JSON value, otherwise an error-classification string. -/
def http_get_json : HttpResult → Option JVal × Option String
  | .ok j => (some j, none)
  | .status c => (none, some ("HTTP " ++ toString c))
  | .badJson => (none, some "Bad JSON")
  | .netError m => (none, some ("NET " ++ m))

/-- GeoLocation record built by get_geo_by_ip; city and country keep the
raw JSON values (possibly null). -/
structure Geo where
  lat : ℚ
  lon : ℚ
  city : JVal
  country : JVal

/-- Python x or y on JSON values: the first operand if truthy, else the
second. -/
def pyOr (a b : JVal) : JVal := if pyTruthy a then a else b

/-- The field-extraction part of get_geo_by_ip (source lines 205-215),
applied to the decoded response body. -/
def geoParse (data : JVal) : Option (Option Geo × Option String) :=
  (dictGet data "lat").bind fun lat =>
  (dictGet data "lon").bind fun lon =>
  (dictGet data "city").bind fun city =>
  (dictGet data "countryCode").bind fun c1 =>
  (dictGet data "country").bind fun c2 =>
  match pyFloat lat, pyFloat lon with
  | some la, some lo => some (some ⟨la, lo, city, pyOr c1 c2⟩, none)
  | _, _ => some (none, some "Missing lat/lon")

def geoPrimaryURL : String := "http://ip-api.com/json/"

def geoFallbackURL : String := "http://208.95.112.1/json/"

/-- get_geo_by_ip from the source, parameterized by the outcomes of the
primary and fallback requests; also returns the list of URLs actually
requested. -/
def get_geo_by_ip (primary fallback : HttpResult) :
    Option (Option Geo × Option String) × List String :=
  let p := http_get_json primary
  if p.2.isSome ∨ ¬ truthyOpt p.1 then
    let f := http_get_json fallback
    if f.2.isSome ∨ ¬ truthyOpt f.1 then
      (some (none, some ((f.2.orElse fun _ => p.2).getD "No data")),
        [geoPrimaryURL, geoFallbackURL])
    else
      (geoParse (f.1.getD JVal.null), [geoPrimaryURL, geoFallbackURL])
  else
    (geoParse (p.1.getD JVal.null), [geoPrimaryURL])

/-- WeatherSample built by get_weather_openweathermap. -/
structure Weather where
  temp : ℚ
  humidity : Option Int
  pressure : Option Int
  wind : Option ℚ
  desc : JVal

/-- Models a conditional coercion of the shape f(v) if is_number(v) else
None; a raising coercion (f v = none with v numeric) propagates as an
exception. -/
def optNum {α : Type} (f : JVal → Option α) (v : JVal) : Option (Option α) :=
  if is_number v then (f v).map some else some none

/-- Extraction of the description text from the weather array (source
lines 238-240). -/
def descOf (w_arr : JVal) : Option JVal :=
  match w_arr with
  | .arr (e :: _) => (dictGet e "description").map fun d =>
      if pyTruthy d then d else JVal.str ""
  | _ => some (JVal.str "")

/-- The field-extraction part of get_weather_openweathermap (source lines
229-253), applied to the decoded response body. -/
def weatherParse (data : JVal) : Option (Option Weather × Option String) :=
  (dictGetD data "main" (JVal.obj [])).bind fun mainObj =>
  (dictGetD data "wind" (JVal.obj [])).bind fun windObj =>
  (dictGetD data "weather" (JVal.arr [])).bind fun w_arr =>
  (dictGet mainObj "temp").bind fun temp =>
  (dictGet mainObj "humidity").bind fun humidity =>
  (dictGet mainObj "pressure").bind fun pressure =>
  (dictGet windObj "speed").bind fun wind_speed =>
  (descOf w_arr).bind fun desc =>
  match pyFloat temp with
  | none => some (none, some "Bad temp")
  | some t =>
    (optNum pyInt humidity).bind fun hum =>
    (optNum pyInt pressure).bind fun pres =>
    (optNum pyFloat wind_speed).bind fun ws =>
    some (some ⟨t, hum, pres, ws, desc⟩, none)

/-- get_weather_openweathermap from the source, parameterized by the
outcome of the single HTTP request. -/
def get_weather_openweathermap (res : HttpResult) :
    Option (Option Weather × Option String) :=
  let r := http_get_json res
  if r.2.isSome ∨ ¬ truthyOpt r.1 then some (none, some (r.2.getD "No data"))
  else weatherParse (r.1.getD JVal.null)

/-
Connectivity manager.  The WLAN device and clock are externals: the
environment gives the isconnected answer as a function of the millisecond
clock, and the outcome of a DNS probe per hostname.  Calls emit an event
trace; the clock advances by the sleeps of the source (300 ms per poll,
500 ms between retries, 200 ms pauses in the hard reset, 1 s after a
fresh connect).
-/

/-- External behaviour of the WLAN interface and of DNS resolution. -/
structure WifiEnv where
  conn : Nat → Bool
  dns : String → Bool

/-- WLAN driver state tracked by the embedding (radio active flag). -/
structure WlanSt where
  active : Bool

/-- Observable actions of the connectivity manager. -/
inductive WEvent where
  | radioOn
  | radioOff
  | disconnect
  | connectCall (maxWaitS : Nat)
  | sleepMs (ms : Nat)
  | logNetinfo
  | dnsProbe (host : String) (ok : Bool)
deriving DecidableEq

/-- Result of a connectivity-manager call. -/
structure WifiRes where
  ok : Bool
  st : WlanSt
  time : Nat
  trace : List WEvent

/-- The connect-wait loop of wifi_connect (source lines 112-122): poll
isconnected every 300 ms until success or until more than budget ms have
elapsed since start.  The loop runs at most budget / 300 + 1 times before
the timeout test fires, so the structural fuel below is never exhausted;
the fuel-out arm returns the same timeout failure. -/
def pollWait (env : WifiEnv) (start budget : Nat) : Nat → Nat → Bool × Nat
  | 0, t => (false, t)
  | f + 1, t =>
    if env.conn t then (true, t)
    else if budget < t - start then (false, t)
    else pollWait env start budget f (t + 300)

/-- Fuel that strictly dominates the iteration count of pollWait for a
wait budget of maxWaitS seconds. -/
def connectFuel (maxWaitS : Nat) : Nat := maxWaitS * 1000 / 300 + 2

/-- wifi_connect from the source: activate the radio if needed, return
immediately when already connected, otherwise issue one connect call and
poll with the given bounded wait; on a fresh success log the interface
configuration, pause 1 s and run the two diagnostic DNS probes. -/
def wifi_connect (env : WifiEnv) (st : WlanSt) (t : Nat) (maxWaitS : Nat) : WifiRes :=
  let ev0 : List WEvent := if st.active then [] else [WEvent.radioOn]
  if env.conn t then ⟨true, ⟨true⟩, t, ev0⟩
  else
    let ev1 := ev0 ++ [WEvent.connectCall maxWaitS]
    match pollWait env t (maxWaitS * 1000) (connectFuel maxWaitS) t with
    | (true, tc) =>
      ⟨true, ⟨true⟩, tc + 1000,
        ev1 ++ [WEvent.logNetinfo, WEvent.sleepMs 1000,
          WEvent.dnsProbe "ip-api.com" (env.dns "ip-api.com"),
          WEvent.dnsProbe "api.openweathermap.org" (env.dns "api.openweathermap.org")]⟩
    | (false, tf) => ⟨false, ⟨true⟩, tf, ev1⟩

/-- The bounded retry loop of wifi_ensure_connected (source lines
139-144): up to n attempts of wifi_connect with a 20 s wait, sleeping
500 ms after every failed attempt. -/
def attemptLoop (env : WifiEnv) : WlanSt → Nat → Nat → WifiRes
  | st, t, 0 => ⟨false, st, t, []⟩
  | st, t, n + 1 =>
    let r := wifi_connect env st t 20
    if r.ok then r
    else
      let rest := attemptLoop env r.st (r.time + 500) n
      ⟨rest.ok, rest.st, rest.time, r.trace ++ [WEvent.sleepMs 500] ++ rest.trace⟩

/-- wifi_ensure_connected from the source: immediate success when already
connected, otherwise 3 bounded attempts, then a hard reset (disconnect,
200 ms, radio off, 200 ms, radio on, 200 ms) and one final connect with a
25 s wait. -/
def wifi_ensure_connected (env : WifiEnv) (st : WlanSt) (t : Nat) : WifiRes :=
  if env.conn t then ⟨true, st, t, []⟩
  else
    let a := attemptLoop env st t 3
    if a.ok then a
    else
      let evReset := [WEvent.disconnect, WEvent.sleepMs 200, WEvent.radioOff,
        WEvent.sleepMs 200, WEvent.radioOn, WEvent.sleepMs 200]
      let r := wifi_connect env ⟨true⟩ (a.time + 600) 25
      ⟨r.ok, r.st, r.time, a.trace ++ evReset ++ r.trace⟩

/-- Discriminator: connect-call events. -/
def WEvent.isConnectCall : WEvent → Bool
  | .connectCall _ => true
  | _ => false

/-- Discriminator: DNS probe events. -/
def WEvent.isDnsProbe : WEvent → Bool
  | .dnsProbe _ _ => true
  | _ => false

/-
Main loop.  One iteration of the while-true loop of main (source lines
431-468): re-validate connectivity, fetch weather when the deadline is
due and advance the deadline, then run the display phase.  The fetch
outcome per iteration is environmental.
-/

/-- External outcome of the weather fetch on each loop iteration: the
(sample, error) pair returned by get_weather_openweathermap. -/
structure FetchEnv where
  fetch : Nat → Option Weather × Option String

/-- Mutable state of the main loop. -/
structure MainSt where
  last_weather : Option Weather
  next_fetch : Nat
  heartbeat : Nat

/-- Observable actions of one main-loop iteration. -/
inductive MEvent where
  | wifiEnsure
  | fetchAttempt
  | cachedNotice
  | errorScreen (msg : String)
  | showWeather (w : Weather)
  | heartbeatScreen (n : Nat)

/-- The fetch interval of the source: 10 * 60 * 1000 ms. -/
def interval_ms : Nat := 10 * 60 * 1000

/-- The fetch step of one main-loop iteration (source lines 434-453): if
the deadline is due, attempt one fetch; on failure show the cached-data
notice when a cached sample and the LCD exist, else the generic error; on
success replace the cached sample; in every due case set the next
deadline to now + interval. -/
def fetchPhase (env : FetchEnv) (hasLcd : Bool) (i : Nat) (now : Nat) (s : MainSt) :
    MainSt × List MEvent :=
  if s.next_fetch ≤ now then
    let r := env.fetch i
    if r.2.isSome ∨ r.1.isNone then
      if s.last_weather.isSome ∧ hasLcd then
        ({ s with next_fetch := now + interval_ms },
          [MEvent.wifiEnsure, MEvent.fetchAttempt, MEvent.cachedNotice])
      else
        ({ s with next_fetch := now + interval_ms },
          [MEvent.wifiEnsure, MEvent.fetchAttempt,
            MEvent.errorScreen (r.2.getD "Weather fail")])
    else
      ({ s with last_weather := r.1, next_fetch := now + interval_ms },
        [MEvent.wifiEnsure, MEvent.fetchAttempt])
  else (s, [MEvent.wifiEnsure])

/-- The display step of one main-loop iteration (source lines 455-466):
show the cached weather when a sample and the LCD exist, else bump the
heartbeat and show the heartbeat screen. -/
def displayPhase (hasLcd : Bool) (fp : MainSt × List MEvent) : MainSt × List MEvent :=
  match fp.1.last_weather, hasLcd with
  | some w, true => (fp.1, fp.2 ++ [MEvent.showWeather w])
  | some _, false =>
    ({ fp.1 with heartbeat := fp.1.heartbeat + 1 },
      fp.2 ++ [MEvent.heartbeatScreen (fp.1.heartbeat + 1)])
  | none, _ =>
    ({ fp.1 with heartbeat := fp.1.heartbeat + 1 },
      fp.2 ++ [MEvent.heartbeatScreen (fp.1.heartbeat + 1)])

/-- One iteration of the main loop at clock value now: connectivity
check, fetch step, display step. -/
def loopIter (env : FetchEnv) (hasLcd : Bool) (i : Nat) (now : Nat) (s : MainSt) :
    MainSt × List MEvent :=
  displayPhase hasLcd (fetchPhase env hasLcd i now s)

/-- The clock values at which a run of the main loop over the given
iteration clock readings performs a weather fetch. -/
def fetchTimes (env : FetchEnv) (hasLcd : Bool) : Nat → MainSt → List Nat → List Nat
  | _, _, [] => []
  | i, s, now :: rest =>
    let s' := (loopIter env hasLcd i now s).1
    if s.next_fetch ≤ now then now :: fetchTimes env hasLcd (i + 1) s' rest
    else fetchTimes env hasLcd (i + 1) s' rest

/-- Discriminator: fetch-attempt events. -/
def MEvent.isFetch : MEvent → Bool
  | .fetchAttempt => true
  | _ => false

/-- Discriminator: cached-data notice events. -/
def MEvent.isCached : MEvent → Bool
  | .cachedNotice => true
  | _ => false

/-- Discriminator: error-screen events. -/
def MEvent.isError : MEvent → Bool
  | .errorScreen _ => true
  | _ => false

/-- Discriminator: weather-display events. -/
def MEvent.isShow : MEvent → Bool
  | .showWeather _ => true
  | _ => false

/-
Geolocation phase of main (source lines 406-421): one initial attempt;
on failure show the error and retry up to 5 times, sleeping 2 s before
each retry, breaking as soon as a location is obtained; if still none,
main parks in an infinite loop that re-displays the error, re-validates
connectivity and sleeps 2 s.
-/

/-- Observable actions of the geolocation phase. -/
inductive GEvent where
  | geoAttempt (k : Nat)
  | showError (msg : String)
  | sleep (ms : Nat)
  | wifiEnsure
deriving DecidableEq

/-- The for-range-5 retry loop: sleep 2 s, retry, break when a location
was returned. -/
def geoRetry (genv : Nat → Option Geo × Option String) : Nat → Nat → Option Geo × List GEvent
  | _, 0 => (none, [])
  | k, r + 1 =>
    let a := genv k
    let ev := [GEvent.sleep 2000, GEvent.geoAttempt k]
    if a.1.isSome then (a.1, ev)
    else
      let rest := geoRetry genv (k + 1) r
      (rest.1, ev ++ rest.2)

/-- The whole geolocation phase: initial attempt, then on failure the
error display and up to 5 retries. -/
def geoPhase (genv : Nat → Option Geo × Option String) : Option Geo × List GEvent :=
  let a0 := genv 0
  if a0.2.isSome ∨ a0.1.isNone then
    let rest := geoRetry genv 1 5
    (rest.1, [GEvent.geoAttempt 0, GEvent.showError (a0.2.getD "Geo failed")] ++ rest.2)
  else (a0.1, [GEvent.geoAttempt 0])

/-- Events of each iteration of the unrecoverable no-location loop
(source lines 417-421). -/
def noGeoLoopEvents : List GEvent :=
  [GEvent.showError "No GEO data", GEvent.wifiEnsure, GEvent.sleep 2000]

/-- Events of the n-th main-loop step after the geolocation phase when no
location was obtained; when a location exists, main leaves this loop and
the weather loop (loopIter) takes over, so no GEvent is produced. -/
def mainPostGeo (genv : Nat → Option Geo × Option String) (_n : Nat) : List GEvent :=
  match (geoPhase genv).1 with
  | none => noGeoLoopEvents
  | some _ => []

/-- Whether main ever reaches the weather-polling loop. -/
def proceedsToWeather (genv : Nat → Option Geo × Option String) : Bool :=
  (geoPhase genv).1.isSome

/-- Discriminator: geolocation attempts. -/
def GEvent.isAttempt : GEvent → Bool
  | .geoAttempt _ => true
  | _ => false

/-- Field access on an association list with Python dict.get(key)
semantics (missing keys read as null); used to phrase theorems. -/
def jget (fs : List (String × JVal)) (k : String) : JVal :=
  (fs.lookup k).getD JVal.null

/-- A WLAN environment in which the interface never reports connected. -/
def wifiEnvDown : WifiEnv := ⟨fun _ => false, fun _ => false⟩

/-- A WLAN environment that reports connected from 300 ms on, with
failing DNS probes. -/
def wifiEnvUpAt300 : WifiEnv := ⟨fun u => decide (300 ≤ u), fun _ => false⟩

/-- A fetch environment in which every weather fetch fails. -/
def fetchEnvFail : FetchEnv := ⟨fun _ => (none, some "NET timeout")⟩

/-- A concrete cached weather sample for witnesses. -/
def wCached : Weather := ⟨20, none, none, none, JVal.str "mist"⟩


/-- C3: pad_right always returns exactly width characters: the first
width characters when the input is longer, otherwise the input padded
with spaces; on the 16-column example the 19-char input is truncated. -/
theorem pad_right_spec (s : Option String) (width : Nat) :
    (pad_right s width).length = width
    ∧ (width < (s.getD "").length →
        pad_right s width = String.mk ((s.getD "").data.take width))
    ∧ ((s.getD "").length ≤ width →
        pad_right s width
          = String.mk ((s.getD "").data ++ List.replicate (width - (s.getD "").length) ' '))
    ∧ pad_right (some "Temp: 23.7C testing") 16 = "Temp: 23.7C test" := by
  have hlen : ∀ (l : List Char), (String.mk l).length = l.length := fun l => rfl
  have hslen : (s.getD "").length = (s.getD "").data.length := rfl
  refine ⟨?_, ?_, ?_, by decide⟩
  · simp only [pad_right]
    split
    · next h =>
      rw [hlen, List.length_take]
      omega
    · next h =>
      rw [hlen, List.length_append, List.length_replicate]
      omega
  · intro h
    simp only [pad_right]
    rw [if_pos h]
  · intro h
    simp only [pad_right]
    rw [if_neg (by omega)]

theorem pad_right_spec_witness :
    16 < ((some "Temp: 23.7C testing").getD "").length
    ∧ pad_right (some "Temp: 23.7C testing") 16
        = String.mk (((some "Temp: 23.7C testing").getD "").data.take 16) :=
  ⟨by decide, (pad_right_spec (some "Temp: 23.7C testing") 16).2.1 (by decide)⟩

/-- A successful primary request with a nonempty-object body skips the
fallback and goes straight to field extraction. -/
theorem get_geo_by_ip_ok_obj (fs : List (String × JVal)) (hne : fs.isEmpty = false)
    (fb : HttpResult) :
    get_geo_by_ip (.ok (.obj fs)) fb = (geoParse (.obj fs), [geoPrimaryURL]) := by
  simp only [get_geo_by_ip, http_get_json]
  rw [if_neg]
  · rfl
  · simp [truthyOpt, pyTruthy, hne]

/-- Field extraction on an object body, phrased with jget. -/
theorem geoParse_obj (fs : List (String × JVal)) :
    geoParse (.obj fs)
      = (match pyFloat (jget fs "lat"), pyFloat (jget fs "lon") with
        | some la, some lo =>
          some (some ⟨la, lo, jget fs "city", pyOr (jget fs "countryCode") (jget fs "country")⟩,
            none)
        | _, _ => some (none, some "Missing lat/lon")) := by
  simp [geoParse, dictGet, dictGetD, jget]

/-- C6: with a successful primary response whose body is a (nonempty)
object, get_geo_by_ip accepts lat and lon whenever float() succeeds on
them (including string-typed numbers) and returns them coerced, with city
and country taken as-is (defaulting to null); if float() fails on lat or
lon it returns no location and the error Missing lat/lon. -/
theorem geo_latlon_validation (fb : HttpResult) (fs : List (String × JVal))
    (hne : fs ≠ []) :
    (∀ la lo, pyFloat (jget fs "lat") = some la → pyFloat (jget fs "lon") = some lo →
      get_geo_by_ip (.ok (.obj fs)) fb
        = (some (some ⟨la, lo, jget fs "city", pyOr (jget fs "countryCode") (jget fs "country")⟩,
            none), [geoPrimaryURL]))
    ∧ ((pyFloat (jget fs "lat") = none ∨ pyFloat (jget fs "lon") = none) →
      get_geo_by_ip (.ok (.obj fs)) fb
        = (some (none, some "Missing lat/lon"), [geoPrimaryURL])) := by
  have hne' : fs.isEmpty = false := by
    cases fs with
    | nil => exact absurd rfl hne
    | cons a l => rfl
  rw [get_geo_by_ip_ok_obj fs hne' fb, geoParse_obj]
  constructor
  · intro la lo hla hlo
    rw [hla, hlo]
  · intro h
    rcases h with h | h
    · rw [h]
    · rw [h]
      cases pyFloat (jget fs "lat") <;> rfl

theorem geo_latlon_validation_witness :
    ([("lat", JVal.str "50.08"), ("lon", JVal.num 14.43)] ≠ ([] : List (String × JVal)))
    ∧ pyFloat (jget [("lat", JVal.str "50.08"), ("lon", JVal.num 14.43)] "lat")
        = some (50.08 : ℚ)
    ∧ pyFloat (jget [("lat", JVal.str "50.08"), ("lon", JVal.num 14.43)] "lon")
        = some (14.43 : ℚ)
    ∧ get_geo_by_ip (.ok (.obj [("lat", JVal.str "50.08"), ("lon", JVal.num 14.43)])) .badJson
        = (some (some ⟨50.08, 14.43,
            jget [("lat", JVal.str "50.08"), ("lon", JVal.num 14.43)] "city",
            pyOr (jget [("lat", JVal.str "50.08"), ("lon", JVal.num 14.43)] "countryCode")
              (jget [("lat", JVal.str "50.08"), ("lon", JVal.num 14.43)] "country")⟩, none),
          [geoPrimaryURL]) := by
  have h1 : pyFloat (jget [("lat", JVal.str "50.08"), ("lon", JVal.num 14.43)] "lat")
      = some (50.08 : ℚ) := by
    simp +decide [jget, List.lookup, pyFloat, parsePyFloat, takeDigits, digitsVal, parseExp,
      parseSignedDigits]
    norm_num
  have h2 : pyFloat (jget [("lat", JVal.str "50.08"), ("lon", JVal.num 14.43)] "lon")
      = some (14.43 : ℚ) := by
    simp +decide [jget, List.lookup, pyFloat]
  exact ⟨List.cons_ne_nil _ _, h1, h2,
    (geo_latlon_validation .badJson [("lat", JVal.str "50.08"), ("lon", JVal.num 14.43)]
      (List.cons_ne_nil _ _)).1 (50.08 : ℚ) (14.43 : ℚ) h1 h2⟩

/-- C7: when the primary geolocation request fails (error or falsy body),
exactly one fallback request to the fixed-IP endpoint is made; when both
fail the function returns no location together with the preserved error
classification (fallback error first, else primary error, else No data),
and http_get_json distinguishes bad-response, network-error and no-data
cases; in every call the fallback is requested at most once. -/
theorem geo_fallback_policy (p f : HttpResult)
    (hp : (http_get_json p).2.isSome ∨ ¬ truthyOpt (http_get_json p).1) :
    (get_geo_by_ip p f).2 = [geoPrimaryURL, geoFallbackURL]
    ∧ (((http_get_json f).2.isSome ∨ ¬ truthyOpt (http_get_json f).1) →
        (get_geo_by_ip p f).1
          = some (none, some
              (((http_get_json f).2.orElse fun _ => (http_get_json p).2).getD "No data")))
    ∧ (http_get_json .badJson).2 = some "Bad JSON"
    ∧ (∀ c, (http_get_json (.status c)).2 = some ("HTTP " ++ toString c))
    ∧ (∀ m, (http_get_json (.netError m)).2 = some ("NET " ++ m))
    ∧ (∀ p' f' : HttpResult, (get_geo_by_ip p' f').2 = [geoPrimaryURL]
        ∨ (get_geo_by_ip p' f').2 = [geoPrimaryURL, geoFallbackURL]) := by
  refine ⟨?_, ?_, rfl, fun c => rfl, fun m => rfl, ?_⟩
  · simp only [get_geo_by_ip]
    rw [if_pos hp]
    split <;> rfl
  · intro hf
    simp only [get_geo_by_ip]
    rw [if_pos hp, if_pos hf]
  · intro p' f'
    simp only [get_geo_by_ip]
    split
    · right
      split <;> rfl
    · left
      rfl

theorem geo_fallback_policy_witness :
    ((http_get_json .badJson).2.isSome ∨ ¬ truthyOpt (http_get_json .badJson).1)
    ∧ ((http_get_json (.netError "timeout")).2.isSome
        ∨ ¬ truthyOpt (http_get_json (.netError "timeout")).1)
    ∧ (get_geo_by_ip .badJson (.netError "timeout")).2 = [geoPrimaryURL, geoFallbackURL]
    ∧ (get_geo_by_ip .badJson (.netError "timeout")).1
        = some (none, some "NET timeout") := by
  have h1 : (http_get_json HttpResult.badJson).2.isSome
      ∨ ¬ truthyOpt (http_get_json HttpResult.badJson).1 := Or.inl rfl
  have h2 : (http_get_json (HttpResult.netError "timeout")).2.isSome
      ∨ ¬ truthyOpt (http_get_json (HttpResult.netError "timeout")).1 := Or.inl rfl
  have main := geo_fallback_policy .badJson (.netError "timeout") h1
  exact ⟨h1, h2, main.1, main.2.1 h2⟩

/-- A successful weather request with a truthy body goes straight to
field extraction. -/
theorem get_weather_ok (d : JVal) (hd : pyTruthy d = true) :
    get_weather_openweathermap (.ok d) = weatherParse d := by
  simp only [get_weather_openweathermap, http_get_json]
  rw [if_neg]
  · rfl
  · simp [truthyOpt, hd]

/-- Field extraction on a response of the usual shape (main and wind
objects, a weather value with an extractable description), phrased with
jget. -/
theorem weatherParse_shape (ms ws : List (String × JVal)) (warr dv : JVal)
    (hdesc : descOf warr = some dv) :
    weatherParse (.obj [("main", .obj ms), ("wind", .obj ws), ("weather", warr)])
      = (match pyFloat (jget ms "temp") with
        | none => some (none, some "Bad temp")
        | some t =>
          (optNum pyInt (jget ms "humidity")).bind fun hum =>
          (optNum pyInt (jget ms "pressure")).bind fun pres =>
          (optNum pyFloat (jget ws "speed")).bind fun w =>
          some (some ⟨t, hum, pres, w, dv⟩, none)) := by
  simp +decide [weatherParse, dictGet, dictGetD, List.lookup, jget, hdesc]

/-- C4: on a response with a numeric temperature but no humidity field,
the sample has humidity none while temp, pressure, wind and description
are populated; optional fields default independently when missing; a
response without a numeric temperature yields the Bad temp error. -/
theorem weather_missing_humidity (ms ws : List (String × JVal)) (warr dv : JVal)
    (hdesc : descOf warr = some dv) :
    (∀ qt qp qw : ℚ, pyFloat (jget ms "temp") = some qt →
      ms.lookup "humidity" = none →
      jget ms "pressure" = .num qp →
      jget ws "speed" = .num qw →
      get_weather_openweathermap
          (.ok (.obj [("main", .obj ms), ("wind", .obj ws), ("weather", warr)]))
        = some (some ⟨qt, none, some (ratTrunc qp), some qw, dv⟩, none))
    ∧ (∀ qt : ℚ, pyFloat (jget ms "temp") = some qt →
      ms.lookup "humidity" = none →
      ms.lookup "pressure" = none →
      ws.lookup "speed" = none →
      get_weather_openweathermap
          (.ok (.obj [("main", .obj ms), ("wind", .obj ws), ("weather", warr)]))
        = some (some ⟨qt, none, none, none, dv⟩, none))
    ∧ (pyFloat (jget ms "temp") = none →
      get_weather_openweathermap
          (.ok (.obj [("main", .obj ms), ("wind", .obj ws), ("weather", warr)]))
        = some (none, some "Bad temp")) := by
  rw [get_weather_ok (.obj [("main", .obj ms), ("wind", .obj ws), ("weather", warr)]) rfl,
    weatherParse_shape ms ws warr dv hdesc]
  refine ⟨?_, ?_, ?_⟩
  · intro qt qp qw htemp hhum hpres hws
    have hh : jget ms "humidity" = JVal.null := by simp [jget, hhum]
    rw [htemp]
    simp [hh, hpres, hws, optNum, is_number, pyFloat, pyInt]
  · intro qt htemp hhum hpres hws
    have hh : jget ms "humidity" = JVal.null := by simp [jget, hhum]
    have hp' : jget ms "pressure" = JVal.null := by simp [jget, hpres]
    have hw' : jget ws "speed" = JVal.null := by simp [jget, hws]
    rw [htemp]
    simp [hh, hp', hw', optNum, is_number, pyFloat]
  · intro htemp
    rw [htemp]

theorem weather_missing_humidity_witness :
    descOf (JVal.arr [.obj [("description", JVal.str "clear sky")]])
        = some (JVal.str "clear sky")
    ∧ pyFloat (jget [("temp", JVal.num 23.7), ("pressure", JVal.num 1013)] "temp")
        = some (23.7 : ℚ)
    ∧ List.lookup "humidity" [("temp", JVal.num 23.7), ("pressure", JVal.num 1013)] = none
    ∧ jget [("temp", JVal.num 23.7), ("pressure", JVal.num 1013)] "pressure"
        = JVal.num 1013
    ∧ jget [("speed", JVal.num 3.6)] "speed" = JVal.num 3.6
    ∧ get_weather_openweathermap (.ok (.obj
        [("main", .obj [("temp", JVal.num 23.7), ("pressure", JVal.num 1013)]),
         ("wind", .obj [("speed", JVal.num 3.6)]),
         ("weather", .arr [.obj [("description", JVal.str "clear sky")]])]))
        = some (some ⟨23.7, none, some (ratTrunc 1013), some 3.6, JVal.str "clear sky"⟩,
            none) := by
  have h1 : descOf (JVal.arr [.obj [("description", JVal.str "clear sky")]])
      = some (JVal.str "clear sky") := rfl
  have h2 : pyFloat (jget [("temp", JVal.num 23.7), ("pressure", JVal.num 1013)] "temp")
      = some (23.7 : ℚ) := rfl
  have h3 : List.lookup "humidity" [("temp", JVal.num 23.7), ("pressure", JVal.num 1013)]
      = none := rfl
  have h4 : jget [("temp", JVal.num 23.7), ("pressure", JVal.num 1013)] "pressure"
      = JVal.num 1013 := rfl
  have h5 : jget [("speed", JVal.num 3.6)] "speed" = JVal.num 3.6 := rfl
  exact ⟨h1, h2, h3, h4, h5,
    (weather_missing_humidity [("temp", JVal.num 23.7), ("pressure", JVal.num 1013)]
      [("speed", JVal.num 3.6)] (.arr [.obj [("description", JVal.str "clear sky")]])
      (JVal.str "clear sky") h1).1 23.7 1013 3.6 h2 h3 h4 h5⟩

/-- C10: humidity and pressure go through int() (truncation toward zero),
while temp and wind go through float() and keep their values exactly. -/
theorem weather_numeric_coercions (ms ws : List (String × JVal)) (warr dv : JVal)
    (hdesc : descOf warr = some dv) (qt qh qp qw : ℚ)
    (htemp : jget ms "temp" = .num qt)
    (hhum : jget ms "humidity" = .num qh)
    (hpres : jget ms "pressure" = .num qp)
    (hws : jget ws "speed" = .num qw) :
    get_weather_openweathermap
        (.ok (.obj [("main", .obj ms), ("wind", .obj ws), ("weather", warr)]))
      = some (some ⟨qt, some (ratTrunc qh), some (ratTrunc qp), some qw, dv⟩, none) := by
  rw [get_weather_ok (.obj [("main", .obj ms), ("wind", .obj ws), ("weather", warr)]) rfl,
    weatherParse_shape ms ws warr dv hdesc]
  simp [htemp, hhum, hpres, hws, optNum, is_number, pyFloat, pyInt]

theorem weather_numeric_coercions_witness :
    descOf (JVal.arr []) = some (JVal.str "")
    ∧ jget [("temp", JVal.num 23.7), ("humidity", JVal.num 55.7),
        ("pressure", JVal.num 1013.25)] "humidity" = JVal.num 55.7
    ∧ get_weather_openweathermap (.ok (.obj
        [("main", .obj [("temp", JVal.num 23.7), ("humidity", JVal.num 55.7),
            ("pressure", JVal.num 1013.25)]),
         ("wind", .obj [("speed", JVal.num 3.6)]),
         ("weather", .arr [])]))
        = some (some ⟨23.7, some 55, some 1013, some 3.6, JVal.str ""⟩, none) := by
  have h := weather_numeric_coercions
    [("temp", JVal.num 23.7), ("humidity", JVal.num 55.7), ("pressure", JVal.num 1013.25)]
    [("speed", JVal.num 3.6)] (JVal.arr []) (JVal.str "") rfl 23.7 55.7 1013.25 3.6
    rfl rfl rfl rfl
  rw [show ratTrunc (55.7 : ℚ) = 55 by norm_num [ratTrunc],
    show ratTrunc (1013.25 : ℚ) = 1013 by norm_num [ratTrunc]] at h
  exact ⟨rfl, rfl, h⟩

/-- The display step never changes the deadline or the cached sample, and
appends exactly one display event. -/
theorem displayPhase_state (hasLcd : Bool) (fp : MainSt × List MEvent) :
    (displayPhase hasLcd fp).1.next_fetch = fp.1.next_fetch
    ∧ (displayPhase hasLcd fp).1.last_weather = fp.1.last_weather
    ∧ ∃ e, (displayPhase hasLcd fp).2 = fp.2 ++ [e]
        ∧ e.isFetch = false ∧ e.isCached = false ∧ e.isError = false := by
  unfold displayPhase
  split <;> simp_all [MEvent.isFetch, MEvent.isCached, MEvent.isError]

/-- The fetch step advances the deadline exactly when due. -/
theorem fetchPhase_next_fetch (env : FetchEnv) (hasLcd : Bool) (i now : Nat) (s : MainSt) :
    (fetchPhase env hasLcd i now s).1.next_fetch
      = if s.next_fetch ≤ now then now + interval_ms else s.next_fetch := by
  unfold fetchPhase
  by_cases hdue : s.next_fetch ≤ now
  · rw [if_pos hdue]
    dsimp only
    split
    · split <;> rfl
    · rfl
  · simp [hdue, MEvent.isFetch]

/-- The fetch step emits exactly one fetch attempt when due, none when
not due. -/
theorem fetchPhase_count (env : FetchEnv) (hasLcd : Bool) (i now : Nat) (s : MainSt) :
    (fetchPhase env hasLcd i now s).2.countP MEvent.isFetch
      = if s.next_fetch ≤ now then 1 else 0 := by
  unfold fetchPhase
  by_cases hdue : s.next_fetch ≤ now
  · rw [if_pos hdue]
    dsimp only
    split
    · split <;> rfl
    · rfl
  · simp [hdue, MEvent.isFetch]

/-- The deadline after one whole loop iteration. -/
theorem loopIter_next_fetch (env : FetchEnv) (hasLcd : Bool) (i now : Nat) (s : MainSt) :
    (loopIter env hasLcd i now s).1.next_fetch
      = if s.next_fetch ≤ now then now + interval_ms else s.next_fetch := by
  unfold loopIter
  rw [(displayPhase_state hasLcd (fetchPhase env hasLcd i now s)).1]
  exact fetchPhase_next_fetch env hasLcd i now s

/-- Every fetch time of a run is at or after the initial deadline. -/
theorem fetchTimes_lb (env : FetchEnv) (hasLcd : Bool) :
    ∀ (times : List Nat) (i : Nat) (s : MainSt) (x : Nat),
      x ∈ fetchTimes env hasLcd i s times → s.next_fetch ≤ x := by
  intro times
  induction times with
  | nil => intro i s x hx; simp [fetchTimes] at hx
  | cons now rest ih =>
    intro i s x hx
    by_cases h : s.next_fetch ≤ now
    · rw [fetchTimes, if_pos h] at hx
      rcases List.mem_cons.1 hx with hx | hx
      · omega
      · have h2 := ih (i + 1) _ x hx
        rw [loopIter_next_fetch, if_pos h] at h2
        have h3 : 0 < interval_ms := by norm_num [interval_ms]
        omega
    · rw [fetchTimes, if_neg h] at hx
      have h2 := ih (i + 1) _ x hx
      rw [loopIter_next_fetch, if_neg h] at h2
      exact h2

/-- Consecutive fetch times of any run are at least one interval apart. -/
theorem fetchTimes_chain (env : FetchEnv) (hasLcd : Bool) :
    ∀ (times : List Nat) (i : Nat) (s : MainSt),
      List.Chain' (fun a b => a + interval_ms ≤ b) (fetchTimes env hasLcd i s times) := by
  intro times
  induction times with
  | nil => intro i s; simp [fetchTimes]
  | cons now rest ih =>
    intro i s
    by_cases h : s.next_fetch ≤ now
    · rw [fetchTimes, if_pos h]
      refine List.chain'_cons'.2 ⟨?_, ih (i + 1) _⟩
      intro y hy
      have hmem := List.mem_of_mem_head? hy
      have h2 := fetchTimes_lb env hasLcd rest (i + 1) _ y hmem
      rw [loopIter_next_fetch, if_pos h] at h2
      exact h2
    · rw [fetchTimes, if_neg h]
      exact ih (i + 1) _

/-- C2: in a due iteration the deadline is advanced to exactly now plus
the 10-minute interval (hence strictly into the future), exactly one
fetch is attempted whether it succeeds or fails, and over any run two
fetches are always at least one interval apart. -/
theorem fetch_deadline_advance (env : FetchEnv) (hasLcd : Bool) (i now : Nat)
    (s : MainSt) (hdue : s.next_fetch ≤ now) :
    (loopIter env hasLcd i now s).1.next_fetch = now + interval_ms
    ∧ now < (loopIter env hasLcd i now s).1.next_fetch
    ∧ (loopIter env hasLcd i now s).2.countP MEvent.isFetch = 1
    ∧ interval_ms = 10 * 60 * 1000
    ∧ (∀ (i0 : Nat) (s0 : MainSt) (times : List Nat),
        List.Chain' (fun a b => a + interval_ms ≤ b) (fetchTimes env hasLcd i0 s0 times)) := by
  have hnf : (loopIter env hasLcd i now s).1.next_fetch = now + interval_ms := by
    rw [loopIter_next_fetch, if_pos hdue]
  refine ⟨hnf, ?_, ?_, rfl, fun i0 s0 times => fetchTimes_chain env hasLcd times i0 s0⟩
  · rw [hnf]
    norm_num [interval_ms]
  · unfold loopIter
    obtain ⟨-, -, e, he, hef, -, -⟩ := displayPhase_state hasLcd (fetchPhase env hasLcd i now s)
    rw [he, List.countP_append]
    rw [fetchPhase_count, if_pos hdue]
    simp [List.countP_cons, hef]

theorem fetch_deadline_advance_witness :
    (⟨none, 0, 0⟩ : MainSt).next_fetch ≤ 0
    ∧ ((loopIter fetchEnvFail true 0 0 ⟨none, 0, 0⟩).1.next_fetch = 0 + interval_ms
      ∧ 0 < (loopIter fetchEnvFail true 0 0 ⟨none, 0, 0⟩).1.next_fetch
      ∧ (loopIter fetchEnvFail true 0 0 ⟨none, 0, 0⟩).2.countP MEvent.isFetch = 1
      ∧ interval_ms = 10 * 60 * 1000
      ∧ (∀ (i0 : Nat) (s0 : MainSt) (times : List Nat),
          List.Chain' (fun a b => a + interval_ms ≤ b)
            (fetchTimes fetchEnvFail true i0 s0 times))) :=
  ⟨Nat.le_refl 0, fetch_deadline_advance fetchEnvFail true 0 0 ⟨none, 0, 0⟩ (Nat.le_refl 0)⟩

/-- C5: in a due iteration whose fetch fails, when a cached sample exists
the sample is kept, the cached-data notice is shown exactly once and no
error screen appears, and the display still shows the cached sample; when
no cached sample exists the generic error screen is shown instead. -/
theorem cached_weather_on_failure (env : FetchEnv) (i now : Nat) (s : MainSt)
    (hdue : s.next_fetch ≤ now)
    (hfail : (env.fetch i).2.isSome ∨ (env.fetch i).1.isNone) :
    (∀ w, s.last_weather = some w →
      loopIter env true i now s
        = ({ s with next_fetch := now + interval_ms },
           [MEvent.wifiEnsure, MEvent.fetchAttempt, MEvent.cachedNotice,
             MEvent.showWeather w])
      ∧ (loopIter env true i now s).2.countP MEvent.isCached = 1
      ∧ (loopIter env true i now s).2.countP MEvent.isError = 0
      ∧ (loopIter env true i now s).2.filter MEvent.isShow = [MEvent.showWeather w])
    ∧ (s.last_weather = none →
      loopIter env true i now s
        = ({ s with next_fetch := now + interval_ms, heartbeat := s.heartbeat + 1 },
           [MEvent.wifiEnsure, MEvent.fetchAttempt,
             MEvent.errorScreen ((env.fetch i).2.getD "Weather fail"),
             MEvent.heartbeatScreen (s.heartbeat + 1)])
      ∧ (loopIter env true i now s).2.countP MEvent.isError = 1
      ∧ (loopIter env true i now s).2.countP MEvent.isCached = 0) := by
  constructor
  · intro w hw
    have hiter : loopIter env true i now s
        = ({ s with next_fetch := now + interval_ms },
           [MEvent.wifiEnsure, MEvent.fetchAttempt, MEvent.cachedNotice,
             MEvent.showWeather w]) := by
      unfold loopIter fetchPhase
      rw [if_pos hdue]
      dsimp only
      rw [if_pos hfail, if_pos (by simp [hw])]
      unfold displayPhase
      simp [hw]
    refine ⟨hiter, ?_, ?_, ?_⟩ <;>
      simp [hiter, MEvent.isCached, MEvent.isError, MEvent.isShow]
  · intro hw
    have hiter : loopIter env true i now s
        = ({ s with next_fetch := now + interval_ms, heartbeat := s.heartbeat + 1 },
           [MEvent.wifiEnsure, MEvent.fetchAttempt,
             MEvent.errorScreen ((env.fetch i).2.getD "Weather fail"),
             MEvent.heartbeatScreen (s.heartbeat + 1)]) := by
      unfold loopIter fetchPhase
      rw [if_pos hdue]
      dsimp only
      rw [if_pos hfail, if_neg (by simp [hw])]
      unfold displayPhase
      simp [hw]
    refine ⟨hiter, ?_, ?_⟩ <;>
      simp [hiter, MEvent.isCached, MEvent.isError]

theorem cached_weather_on_failure_witness :
    (⟨some wCached, 0, 0⟩ : MainSt).next_fetch ≤ 0
    ∧ ((fetchEnvFail.fetch 0).2.isSome ∨ (fetchEnvFail.fetch 0).1.isNone)
    ∧ (⟨some wCached, 0, 0⟩ : MainSt).last_weather = some wCached
    ∧ loopIter fetchEnvFail true 0 0 ⟨some wCached, 0, 0⟩
        = (⟨some wCached, 0 + interval_ms, 0⟩,
           [MEvent.wifiEnsure, MEvent.fetchAttempt, MEvent.cachedNotice,
             MEvent.showWeather wCached])
    ∧ (loopIter fetchEnvFail true 0 0 ⟨some wCached, 0, 0⟩).2.countP MEvent.isCached = 1 := by
  have h := (cached_weather_on_failure fetchEnvFail 0 0 ⟨some wCached, 0, 0⟩
    (Nat.le_refl 0) (Or.inl rfl)).1 wCached rfl
  exact ⟨Nat.le_refl 0, Or.inl rfl, rfl, h.1, h.2.1⟩

/-- C8: when every geolocation attempt fails, the phase performs the
initial attempt plus exactly 5 retries, each retry preceded by a 2 s
pause, ends with no location, and main then parks in the unrecoverable
loop whose every iteration re-displays the error, re-validates
connectivity and sleeps 2 s, never reaching the weather loop. -/
theorem geo_retry_exhaustion (genv : Nat → Option Geo × Option String)
    (hfail : ∀ k, (genv k).1 = none) :
    (geoPhase genv).1 = none
    ∧ (geoPhase genv).2
        = [GEvent.geoAttempt 0, GEvent.showError ((genv 0).2.getD "Geo failed"),
           GEvent.sleep 2000, GEvent.geoAttempt 1, GEvent.sleep 2000, GEvent.geoAttempt 2,
           GEvent.sleep 2000, GEvent.geoAttempt 3, GEvent.sleep 2000, GEvent.geoAttempt 4,
           GEvent.sleep 2000, GEvent.geoAttempt 5]
    ∧ (geoPhase genv).2.countP GEvent.isAttempt = 6
    ∧ proceedsToWeather genv = false
    ∧ (∀ n, mainPostGeo genv n = noGeoLoopEvents)
    ∧ noGeoLoopEvents.countP GEvent.isAttempt = 0 := by
  have htr : (geoPhase genv).2
      = [GEvent.geoAttempt 0, GEvent.showError ((genv 0).2.getD "Geo failed"),
         GEvent.sleep 2000, GEvent.geoAttempt 1, GEvent.sleep 2000, GEvent.geoAttempt 2,
         GEvent.sleep 2000, GEvent.geoAttempt 3, GEvent.sleep 2000, GEvent.geoAttempt 4,
         GEvent.sleep 2000, GEvent.geoAttempt 5] := by
    simp [geoPhase, geoRetry, hfail]
  have hnone : (geoPhase genv).1 = none := by
    simp [geoPhase, geoRetry, hfail]
  refine ⟨hnone, htr, ?_, ?_, ?_, rfl⟩
  · rw [htr]; rfl
  · simp [proceedsToWeather, hnone]
  · intro n
    simp [mainPostGeo, hnone]

theorem geo_retry_exhaustion_witness :
    (∀ k, ((fun _ : Nat => ((none : Option Geo), some "NET timeout")) k).1 = none)
    ∧ ((geoPhase fun _ => (none, some "NET timeout")).1 = none
      ∧ (geoPhase fun _ => (none, some "NET timeout")).2
          = [GEvent.geoAttempt 0, GEvent.showError "NET timeout",
             GEvent.sleep 2000, GEvent.geoAttempt 1, GEvent.sleep 2000, GEvent.geoAttempt 2,
             GEvent.sleep 2000, GEvent.geoAttempt 3, GEvent.sleep 2000, GEvent.geoAttempt 4,
             GEvent.sleep 2000, GEvent.geoAttempt 5]
      ∧ (geoPhase fun _ => (none, some "NET timeout")).2.countP GEvent.isAttempt = 6
      ∧ proceedsToWeather (fun _ => (none, some "NET timeout")) = false
      ∧ (∀ n, mainPostGeo (fun _ => (none, some "NET timeout")) n = noGeoLoopEvents)
      ∧ noGeoLoopEvents.countP GEvent.isAttempt = 0) := by
  have h := geo_retry_exhaustion (fun _ => (none, some "NET timeout")) (fun _ => rfl)
  exact ⟨fun _ => rfl, h⟩

/-- When the interface never reports connected, the poll loop always
times out. -/
theorem pollWait_conn_false (env : WifiEnv) (h : ∀ u, env.conn u = false) :
    ∀ (f start budget t : Nat), (pollWait env start budget f t).1 = false := by
  intro f
  induction f with
  | zero => intro start budget t; rfl
  | succ f ih =>
    intro start budget t
    simp only [pollWait, h, Bool.false_eq_true, if_false]
    split
    · rfl
    · exact ih start budget (t + 300)

/-- When the interface never reports connected, wifi_connect fails with a
radio-activation event (if needed) and one connect call. -/
theorem wifi_connect_conn_false (env : WifiEnv) (h : ∀ u, env.conn u = false) :
    ∀ (st : WlanSt) (t w : Nat),
      wifi_connect env st t w
        = ⟨false, ⟨true⟩, (pollWait env t (w * 1000) (connectFuel w) t).2,
           (if st.active then [] else [WEvent.radioOn]) ++ [WEvent.connectCall w]⟩ := by
  intro st t w
  unfold wifi_connect
  rw [h t]
  cases hp : pollWait env t (w * 1000) (connectFuel w) t with
  | mk b t2 =>
    have hb : b = false := by
      have hq := pollWait_conn_false env h (connectFuel w) t (w * 1000) t
      rw [hp] at hq
      exact hq
    subst hb
    simp

/-- When the interface never reports connected, the 3-attempt retry loop
fails with exactly the attempt/pause trace. -/
theorem attemptLoop_conn_false (env : WifiEnv) (h : ∀ u, env.conn u = false)
    (st : WlanSt) (t : Nat) :
    (attemptLoop env st t 3).ok = false
    ∧ (attemptLoop env st t 3).st = ⟨true⟩
    ∧ (attemptLoop env st t 3).trace
      = (if st.active then [] else [WEvent.radioOn]) ++
        [WEvent.connectCall 20, WEvent.sleepMs 500, WEvent.connectCall 20,
         WEvent.sleepMs 500, WEvent.connectCall 20, WEvent.sleepMs 500] := by
  refine ⟨?_, ?_, ?_⟩ <;>
    simp [attemptLoop, wifi_connect_conn_false env h]

/-- When the interface never reports connected, the whole escalation of
wifi_ensure_connected fails with the full attempt/reset trace. -/
theorem wifi_ensure_conn_false (env : WifiEnv) (h : ∀ u, env.conn u = false)
    (st : WlanSt) (t : Nat) :
    (wifi_ensure_connected env st t).ok = false
    ∧ (wifi_ensure_connected env st t).trace
      = (if st.active then [] else [WEvent.radioOn]) ++
        [WEvent.connectCall 20, WEvent.sleepMs 500, WEvent.connectCall 20,
         WEvent.sleepMs 500, WEvent.connectCall 20, WEvent.sleepMs 500,
         WEvent.disconnect, WEvent.sleepMs 200, WEvent.radioOff, WEvent.sleepMs 200,
         WEvent.radioOn, WEvent.sleepMs 200, WEvent.connectCall 25] := by
  obtain ⟨h1, h2, h3⟩ := attemptLoop_conn_false env h st t
  unfold wifi_ensure_connected
  rw [h t]
  simp only [Bool.false_eq_true, if_false]
  constructor
  · simp [h1, wifi_connect_conn_false env h]
  · simp [h1, h3, wifi_connect_conn_false env h]

/-- C1: when the interface is not connected and every attempt fails,
wifi_ensure_connected performs exactly 3 bounded 20 s attempts with a
500 ms pause after each, one hard reset (single disconnect and radio-off)
with one final 25 s attempt, and returns false; when already connected it
returns true at once with no events. -/
theorem wifi_ensure_bounded (env : WifiEnv) (st : WlanSt) (t : Nat) :
    ((∀ u, env.conn u = false) →
      (wifi_ensure_connected env st t).ok = false
      ∧ (wifi_ensure_connected env st t).trace.filter WEvent.isConnectCall
          = [WEvent.connectCall 20, WEvent.connectCall 20, WEvent.connectCall 20,
             WEvent.connectCall 25]
      ∧ (wifi_ensure_connected env st t).trace.count WEvent.disconnect = 1
      ∧ (wifi_ensure_connected env st t).trace.count WEvent.radioOff = 1
      ∧ (wifi_ensure_connected env st t).trace.count (WEvent.sleepMs 500) = 3)
    ∧ (env.conn t = true → wifi_ensure_connected env st t = ⟨true, st, t, []⟩) := by
  constructor
  · intro h
    obtain ⟨h1, h2⟩ := wifi_ensure_conn_false env h st t
    refine ⟨h1, ?_, ?_, ?_, ?_⟩ <;> rw [h2] <;> cases hst : st.active <;> decide
  · intro hc
    unfold wifi_ensure_connected
    simp [hc]

theorem wifi_ensure_bounded_witness :
    (∀ u, wifiEnvDown.conn u = false)
    ∧ ((wifi_ensure_connected wifiEnvDown ⟨true⟩ 0).ok = false
      ∧ (wifi_ensure_connected wifiEnvDown ⟨true⟩ 0).trace.filter WEvent.isConnectCall
          = [WEvent.connectCall 20, WEvent.connectCall 20, WEvent.connectCall 20,
             WEvent.connectCall 25]
      ∧ (wifi_ensure_connected wifiEnvDown ⟨true⟩ 0).trace.count WEvent.disconnect = 1
      ∧ (wifi_ensure_connected wifiEnvDown ⟨true⟩ 0).trace.count WEvent.radioOff = 1
      ∧ (wifi_ensure_connected wifiEnvDown ⟨true⟩ 0).trace.count (WEvent.sleepMs 500) = 3) :=
  ⟨fun _ => rfl, (wifi_ensure_bounded wifiEnvDown ⟨true⟩ 0).1 (fun _ => rfl)⟩

/-- C9: a wifi_connect call that enters the connect path and succeeds
logs the interface configuration once and performs exactly the two
diagnostic DNS probes, and returns true whatever the probe outcomes. -/
theorem wifi_connect_fresh_probes (env : WifiEnv) (st : WlanSt) (t w : Nat)
    (hnc : env.conn t = false)
    (hpoll : (pollWait env t (w * 1000) (connectFuel w) t).1 = true) :
    (wifi_connect env st t w).ok = true
    ∧ (wifi_connect env st t w).trace.filter WEvent.isDnsProbe
        = [WEvent.dnsProbe "ip-api.com" (env.dns "ip-api.com"),
           WEvent.dnsProbe "api.openweathermap.org" (env.dns "api.openweathermap.org")]
    ∧ (wifi_connect env st t w).trace.count WEvent.logNetinfo = 1 := by
  unfold wifi_connect
  rw [hnc]
  simp only [Bool.false_eq_true, if_false]
  cases hp : pollWait env t (w * 1000) (connectFuel w) t with
  | mk b t2 =>
    have hb : b = true := by rw [hp] at hpoll; exact hpoll
    subst hb
    refine ⟨rfl, ?_, ?_⟩ <;> cases hst : st.active <;>
      simp [WEvent.isDnsProbe, List.count_cons, List.count_nil, List.filter]

theorem wifi_connect_fresh_probes_witness :
    wifiEnvUpAt300.conn 0 = false
    ∧ (pollWait wifiEnvUpAt300 0 (20 * 1000) (connectFuel 20) 0).1 = true
    ∧ ((wifi_connect wifiEnvUpAt300 ⟨true⟩ 0 20).ok = true
      ∧ (wifi_connect wifiEnvUpAt300 ⟨true⟩ 0 20).trace.filter WEvent.isDnsProbe
          = [WEvent.dnsProbe "ip-api.com" (wifiEnvUpAt300.dns "ip-api.com"),
             WEvent.dnsProbe "api.openweathermap.org"
               (wifiEnvUpAt300.dns "api.openweathermap.org")]
      ∧ (wifi_connect wifiEnvUpAt300 ⟨true⟩ 0 20).trace.count WEvent.logNetinfo = 1) :=
  ⟨rfl, rfl, wifi_connect_fresh_probes wifiEnvUpAt300 ⟨true⟩ 0 20 rfl rfl⟩
